import Mathlib

/-!
Verification of the matching & filtering engine of `app.py` (ISO findings
dashboard).  Tables are modelled as an ordered column list together with rows
given as association lists from column name to cell value; a pandas cell is
either a string, Python `None`, or a missing value (`NaN`).  Every definition
in the first part of the file is a direct translation of the corresponding
Python code in `src/app.py`; pandas pattern matching (`Series.str.contains`)
is modelled as literal substring containment, which coincides with the pandas
behaviour whenever the pattern contains no regular-expression metacharacters
(all patterns appearing in concrete statements below are of that form).
-/

set_option maxHeartbeats 1000000

/-- A pandas cell: a string value, Python `None`, or a missing value (`NaN`). -/
inductive Cell where
  | str : String → Cell
  | null : Cell
  | nan : Cell
deriving DecidableEq, Repr

/-- Python `str()` applied to a cell: `str(None) = "None"`, `str(nan) = "nan"`. -/
def pyStr : Cell → String
  | Cell.str s => s
  | Cell.null => "None"
  | Cell.nan => "nan"

/-- A row of a table: association list from column name to cell. -/
abbrev Row := List (String × Cell)

/-- A table: ordered column names plus rows keyed by column name. -/
structure Table where
  cols : List String
  rows : List Row
deriving DecidableEq, Repr

/-- Look up the cell stored under column `c` in row `r` (first binding wins). -/
def getCell (r : Row) (c : String) : Option Cell :=
  (r.find? (fun p => p.1 == c)).map Prod.snd

/-- `pandas.Series.get` semantics used by `row.get(...)` in `match_req`:
a label absent from the row yields Python `None`. -/
def rowGet (r : Row) (c : String) : Cell :=
  (getCell r c).getD Cell.null

/-- The string stored in column `c` of row `r` in an `astype(str)` context:
a cell that is physically absent from the row is a missing value (`NaN`). -/
def cellS (r : Row) (c : String) : String :=
  pyStr ((getCell r c).getD Cell.nan)

/-- Column assignment on one row: overwrite in place if the key exists,
otherwise append the new binding at the end. -/
def setCell (r : Row) (c : String) (v : Cell) : Row :=
  if (getCell r c).isSome then
    r.map (fun p => if p.1 == c then (c, v) else p)
  else r ++ [(c, v)]

/-- `df[c] = series` at table level: the column is appended to the schema
when new, kept in place when already present. -/
def assignCol (t : Table) (c : String) (g : Row → Cell) : Table :=
  { cols := if t.cols.contains c then t.cols else t.cols ++ [c],
    rows := t.rows.map (fun r => setCell r c (g r)) }

/-- The fixed noise-column name set of `drop_noise_columns` (app.py line 104). -/
def noiseNames : List String := ["기관명", "평가종류", "시작일", "종료일", "발행번호"]

/-- A column is dropped when its name is in the fixed noise set or starts
with "Unnamed" (spreadsheet placeholder columns), app.py lines 104-105. -/
def isNoise (c : String) : Bool :=
  noiseNames.contains c || c.startsWith "Unnamed"

/-- `drop_noise_columns` (app.py lines 103-106): drop the noise columns and
every `Unnamed*` column from schema and rows; `errors="ignore"` means absent
names are simply skipped, which the filter does by construction. -/
def drop_noise_columns (df : Table) : Table :=
  { cols := df.cols.filter (fun c => !(isNoise c)),
    rows := df.rows.map (fun r => r.filter (fun p => !(isNoise p.1))) }

/-- Accepted clause-identifier column names, in the order tried by
`next((c for c in std_cols if c in ["조항","Clause","항목"]), None)`. -/
def clauseSynonyms : List String := ["조항", "Clause", "항목"]

/-- Accepted requirement-text column names (app.py line 112). -/
def reqSynonyms : List String := ["요구사항", "Requirement", "내용"]

/-- `next((c for c in std_cols if c in syns), None)`: the first column of the
table (in schema order) whose name belongs to the synonym list. -/
def findCol (cols : List String) (syns : List String) : Option String :=
  cols.find? (fun c => syns.contains c)

/-- `std[clause_col] = std[clause_col].astype(str)` (app.py line 115): coerce
the given column of every row to its Python string form. -/
def astypeStrCol (t : Table) (c : String) : Table :=
  { t with rows := t.rows.map (fun r =>
      r.map (fun p => if p.1 == c then (p.1, Cell.str (pyStr p.2)) else p)) }

/-- `match_req` (app.py lines 117-121): try the string form of the row's
세부조항 value against the standards clause column, then the string form of
its 조항 value; `std.loc[std[cc]==k, rc].values[0]` returns the requirement
cell of the first matching standards row; otherwise the empty string. -/
def match_req (std : Table) (cc rc : String) (row : Row) : Cell :=
  let sub := pyStr (rowGet row "세부조항")
  let main := pyStr (rowGet row "조항")
  match std.rows.find? (fun r => cellS r cc == sub) with
  | Option.some r => (getCell r rc).getD Cell.nan
  | Option.none =>
    match std.rows.find? (fun r => cellS r cc == main) with
    | Option.some r => (getCell r rc).getD Cell.nan
    | Option.none => Cell.str ""

/-- `add_req_text` (app.py lines 108-123): pass `findings` through unchanged
when `standards` is absent or lacks a recognized clause or requirement
column; otherwise normalize the clause column of a copy of `standards` to
strings and assign the per-row `match_req` result as the 요구사항 column of
a copy of `findings`. -/
def add_req_text (findings : Table) (standards : Option Table) : Table :=
  match standards with
  | Option.none => findings
  | Option.some standardsT =>
    match findCol standardsT.cols clauseSynonyms, findCol standardsT.cols reqSynonyms with
    | Option.some cc, Option.some rc =>
      let std := astypeStrCol standardsT cc
      assignCol findings "요구사항" (fun r => match_req std cc rc r)
    | _, _ => findings

/-- Character-list prefix test (needle first). -/
def charsPref : List Char → List Char → Bool
  | [], _ => true
  | _ :: _, [] => false
  | a :: as, b :: bs => a == b && charsPref as bs

/-- Character-list substring test (needle first): Python `needle in hay`. -/
def charsSub : List Char → List Char → Bool
  | n, [] => charsPref n []
  | n, b :: t => charsPref n (b :: t) || charsSub n t

/-- Case-sensitive substring containment on strings, as performed by
`Series.str.contains(pat)` for a metacharacter-free pattern. -/
def containsStr (hay needle : String) : Bool :=
  charsSub needle.toList hay.toList

/-- ASCII lowercasing of one character, as Python `str.lower` acts on the
characters occurring in this data (non-ASCII characters are unchanged). -/
def lowerChar (c : Char) : Char :=
  if 65 ≤ c.toNat ∧ c.toNat ≤ 90 then Char.ofNat (c.toNat + 32) else c

/-- Lowercase a string character-wise. -/
def pyLower (s : String) : List Char :=
  s.toList.map lowerChar

/-- Case-insensitive substring containment, as performed by
`Series.str.contains(pat, case=False)` for a metacharacter-free pattern. -/
def containsCI (hay needle : String) : Bool :=
  charsSub (pyLower needle) (pyLower hay)

/-- One multiselect filter line of app.py lines 152-154:
`if col in df and sel: df = df[df[col].astype(str).isin(sel)]`. -/
def filterBySel (t : Table) (col : String) (sel : List String) : Table :=
  if t.cols.contains col && !sel.isEmpty then
    { t with rows := t.rows.filter (fun r => sel.contains (cellS r col)) }
  else t

/-- The keyword predicate of app.py line 155: the row's 내용 cell after
`astype(str)` contains the keyword case-insensitively (`na=False` is inert
because `astype(str)` has already turned every missing value into "nan"). -/
def keywordHit (r : Row) (kw : String) : Bool :=
  containsCI (cellS r "내용") kw

/-- The keyword filter line of app.py line 155:
`if "내용" in df and 키워드: df = df[df["내용"].astype(str).str.contains(키워드, case=False, na=False)]`. -/
def filterKeyword (t : Table) (kw : String) : Table :=
  if t.cols.contains "내용" && !(kw == "") then
    { t with rows := t.rows.filter (fun r => keywordHit r kw) }
  else t

/-- The clause-search mask of app.py lines 157-159: start from all-`False`
and OR in a substring test against the string form of 조항 and of 세부조항,
each contributing only when its column is present. -/
def clauseSearchHit (cols : List String) (r : Row) (s : String) : Bool :=
  (cols.contains "조항" && containsStr (cellS r "조항") s)
    || (cols.contains "세부조항" && containsStr (cellS r "세부조항") s)

/-- The clause-search filter of app.py lines 156-160 (`if 조항검색:` is
Python truthiness, so the empty search string leaves the table unchanged). -/
def filterClauseSearch (t : Table) (s : String) : Table :=
  if s == "" then t
  else { t with rows := t.rows.filter (fun r => clauseSearchHit t.cols r s) }

/-- The whole filtering block of app.py lines 150-160: the filters run (in
source order) when the search button was pressed or any criterion is
non-empty; otherwise the table is returned unchanged. -/
def apply_filters (t : Table) (clausesSel subclausesSel categoriesSel : List String)
    (kw cs : String) (btn : Bool) : Table :=
  if btn || !clausesSel.isEmpty || !subclausesSel.isEmpty || !categoriesSel.isEmpty
      || !(kw == "") || !(cs == "") then
    filterClauseSearch
      (filterKeyword
        (filterBySel (filterBySel (filterBySel t "조항" clausesSel)
          "세부조항" subclausesSel) "구분" categoriesSel) kw) cs
  else t

/-- `DEFAULT_FINDINGS` (app.py lines 76-89). -/
def DEFAULT_FINDINGS : Table :=
  { cols := ["인정기준", "조항", "세부조항", "구분", "내용"],
    rows := [
      [("인정기준", Cell.str "KAB-R-MSCB"), ("조항", Cell.str "7"),
       ("세부조항", Cell.str "7.1"), ("구분", Cell.str "부적합"),
       ("내용", Cell.str "조직은 품질경영시스템 자원의 충분성을 확보하지 못함.")],
      [("인정기준", Cell.str "KAB-R-MSCB"), ("조항", Cell.str "7.1"),
       ("세부조항", Cell.str "7.1.1"), ("구분", Cell.str "권고"),
       ("내용", Cell.str "프로세스 운영계획서에 인원 배치가 미흡함.")],
      [("인정기준", Cell.str "KAB-R-MSCB"), ("조항", Cell.str "7.2"),
       ("세부조항", Cell.str "7.1.2"), ("구분", Cell.str "부적합"),
       ("내용", Cell.str "고객 요구사항 검토 절차 미이행.")],
      [("인정기준", Cell.str "KAB-R-MSCB"), ("조항", Cell.str "8.3"),
       ("세부조항", Cell.str "8.3.1"), ("구분", Cell.str "권고"),
       ("내용", Cell.str "변경관리 절차서가 최신화되어 있지 않음.")],
      [("인정기준", Cell.str "KAB-R-MSCB"), ("조항", Cell.str "9.1"),
       ("세부조항", Cell.str "9.1.1"), ("구분", Cell.str "부적합"),
       ("내용", Cell.str "내부심사 계획이 적시에 수립되지 않음.")],
      [("인정기준", Cell.str "KAB-R-MSCB"), ("조항", Cell.str "9.2"),
       ("세부조항", Cell.str "9.2.2"), ("구분", Cell.str "권고"),
       ("내용", Cell.str "고객만족도 조사 절차 개선 필요.")]] }

/-- `DEFAULT_STANDARDS` (app.py lines 90-100). -/
def DEFAULT_STANDARDS : Table :=
  { cols := ["조항", "요구사항"],
    rows := [
      [("조항", Cell.str "7"),
       ("요구사항", Cell.str "조직은 필요한 자원을 결정하고 제공해야 한다.")],
      [("조항", Cell.str "7.1"),
       ("요구사항", Cell.str "조직은 인프라를 포함한 필요한 자원을 제공해야 한다.")],
      [("조항", Cell.str "7.2"),
       ("요구사항", Cell.str "조직은 인적 자원의 역량을 보장해야 한다.")],
      [("조항", Cell.str "8.3"),
       ("요구사항", Cell.str "제품 및 서비스 설계개발을 관리해야 한다.")],
      [("조항", Cell.str "9.1"),
       ("요구사항", Cell.str "모니터링 및 측정을 통해 시스템 성과를 평가해야 한다.")],
      [("조항", Cell.str "9.2"),
       ("요구사항", Cell.str "내부심사를 계획하고 실시해야 한다.")]] }

/-- The table the filtering block operates on in the default (no upload)
path: app.py lines 133-136 and 150. -/
def defaultEnriched : Table :=
  add_req_text (drop_noise_columns DEFAULT_FINDINGS) (Option.some DEFAULT_STANDARDS)

/-- State-level rendering of `drop_noise_columns`: `df.drop(columns=..)`
allocates a new frame, so the call returns the result together with the
caller-visible argument after the call, which is the unmodified `df`. -/
def drop_noise_columns_fx (df : Table) : Table × Table :=
  (drop_noise_columns df, df)

/-- State-level rendering of `add_req_text`: the two in-place writes of the
body (`std[clause_col] = ...` on line 115 and `f["요구사항"] = ...` on
line 122) target `std = standards.copy()` and `f = findings.copy()`, so the
caller-visible `findings` and `standards` after the call are the unmodified
arguments; result first, then caller's findings, then caller's standards. -/
def add_req_text_fx (findings : Table) (standards : Option Table) :
    Table × Table × Option Table :=
  match standards with
  | Option.none => (findings, findings, standards)
  | Option.some standardsT =>
    match findCol standardsT.cols clauseSynonyms, findCol standardsT.cols reqSynonyms with
    | Option.some cc, Option.some rc =>
      let std := astypeStrCol standardsT cc
      let f := assignCol findings "요구사항" (fun r => match_req std cc rc r)
      (f, findings, Option.some standardsT)
    | _, _ => (findings, findings, standards)

/-! ### Helper lemmas -/

/-- `List.find?` returns the element at the least index satisfying the
predicate: if `l[i]` satisfies `p` and no earlier element does, the search
stops exactly at `l[i]`. -/
theorem find?_first {α : Type} (p : α → Bool) (l : List α) :
    ∀ (i : Nat) (hi : i < l.length), p l[i] = true →
      (∀ j, (hj : j < i) → p l[j] = false) → l.find? p = some l[i] := by
  induction l with
  | nil => intro i hi; exact absurd hi (by simp)
  | cons a t ih =>
    intro i hi hp hmin
    cases i with
    | zero => simpa using List.find?_cons_of_pos t (by simpa using hp)
    | succ n =>
      have hn : n < t.length := by simpa using Nat.lt_of_succ_lt_succ hi
      have ha : p a = false := by simpa using hmin 0 (Nat.succ_pos n)
      have hp2 : p t[n] = true := by simpa using hp
      have hmin2 : ∀ j, (hj : j < n) → p t[j] = false := by
        intro j hj
        have := hmin (j + 1) (Nat.succ_lt_succ hj)
        simpa using this
      have ht : t.find? p = some t[n] := ih n hn hp2 hmin2
      rw [List.find?_cons_of_neg t (by simp [ha]), ht]
      simp

/-- Correctness of the character-list prefix test. -/
theorem charsPref_iff (n : List Char) : ∀ h : List Char,
    charsPref n h = true ↔ ∃ t, h = n ++ t := by
  induction n with
  | nil => intro h; simp [charsPref]
  | cons a as ih =>
    intro h
    cases h with
    | nil => simp [charsPref]
    | cons b bs =>
      simp only [charsPref, Bool.and_eq_true, beq_iff_eq, ih bs, List.cons_append,
        List.cons.injEq]
      constructor
      · rintro ⟨rfl, t, rfl⟩; exact ⟨t, rfl, rfl⟩
      · rintro ⟨t, rfl, rfl⟩; exact ⟨rfl, t, rfl⟩

/-- Correctness of the character-list substring test: `charsSub n h` holds
exactly when `h` decomposes as `p ++ n ++ q`. -/
theorem charsSub_iff (n : List Char) : ∀ h : List Char,
    charsSub n h = true ↔ ∃ p q, h = p ++ n ++ q := by
  intro h
  induction h with
  | nil =>
    cases n with
    | nil => simp [charsSub, charsPref]
    | cons a as => simp [charsSub, charsPref]
  | cons a t ih =>
    simp only [charsSub, Bool.or_eq_true, charsPref_iff, ih]
    constructor
    · rintro (⟨q, hq⟩ | ⟨p, q, rfl⟩)
      · exact ⟨[], q, by simpa using hq⟩
      · exact ⟨a :: p, q, rfl⟩
    · rintro ⟨p, q, hpq⟩
      cases p with
      | nil => exact Or.inl ⟨q, by simpa using hpq⟩
      | cons x xs =>
        have hx : a = x ∧ t = xs ++ n ++ q := by simpa using hpq
        exact Or.inr ⟨xs, q, hx.2⟩

/-! ### Claim theorems -/

/-- C1: for every finding row, the requirement matcher first tries the string
form of the row's 세부조항 value against the (string-normalized) standards
clause column: if it equals the clause of some standards row, the requirement
is the requirement cell of the first such row; otherwise, if the string form
of the row's 조항 value equals the clause of some standards row, the first
such row's requirement cell is used; otherwise the requirement is the empty
string. -/
theorem C1_match_req_first_occurrence (std : Table) (cc rc : String) (row : Row) :
    (∀ i, (hi : i < std.rows.length) →
        cellS std.rows[i] cc = pyStr (rowGet row "세부조항") →
        (∀ j, (hj : j < i) → cellS std.rows[j] cc ≠ pyStr (rowGet row "세부조항")) →
        match_req std cc rc row = (getCell std.rows[i] rc).getD Cell.nan)
    ∧ ((∀ r ∈ std.rows, cellS r cc ≠ pyStr (rowGet row "세부조항")) →
       ∀ i, (hi : i < std.rows.length) →
        cellS std.rows[i] cc = pyStr (rowGet row "조항") →
        (∀ j, (hj : j < i) → cellS std.rows[j] cc ≠ pyStr (rowGet row "조항")) →
        match_req std cc rc row = (getCell std.rows[i] rc).getD Cell.nan)
    ∧ ((∀ r ∈ std.rows,
          cellS r cc ≠ pyStr (rowGet row "세부조항") ∧ cellS r cc ≠ pyStr (rowGet row "조항")) →
       match_req std cc rc row = Cell.str "") := by
  refine ⟨?_, ?_, ?_⟩
  · intro i hi hkey hmin
    have hfind : std.rows.find? (fun r => cellS r cc == pyStr (rowGet row "세부조항"))
        = some std.rows[i] := by
      refine find?_first _ _ i hi (by simp [hkey]) ?_
      intro j hj
      simpa using hmin j hj
    simp only [match_req, hfind]
  · intro hsub i hi hkey hmin
    have hnone : std.rows.find? (fun r => cellS r cc == pyStr (rowGet row "세부조항"))
        = Option.none := by
      refine List.find?_eq_none.mpr ?_
      intro x hx
      simpa using hsub x hx
    have hfind : std.rows.find? (fun r => cellS r cc == pyStr (rowGet row "조항"))
        = some std.rows[i] := by
      refine find?_first _ _ i hi (by simp [hkey]) ?_
      intro j hj
      simpa using hmin j hj
    simp only [match_req, hnone, hfind]
  · intro hboth
    have h1 : std.rows.find? (fun r => cellS r cc == pyStr (rowGet row "세부조항"))
        = Option.none := by
      refine List.find?_eq_none.mpr ?_
      intro x hx
      simpa using (hboth x hx).1
    have h2 : std.rows.find? (fun r => cellS r cc == pyStr (rowGet row "조항"))
        = Option.none := by
      refine List.find?_eq_none.mpr ?_
      intro x hx
      simpa using (hboth x hx).2
    simp only [match_req, h1, h2]

/-- The first default finding row, used to instantiate C1. -/
def findingRow0 : Row := DEFAULT_FINDINGS.rows.getD 0 []

/-- Witness for C1: on the first default finding row (세부조항 "7.1") and the
default standards, the sub-clause match at standards index 1 fires and the
matcher returns the 7.1 requirement text. -/
theorem C1_match_req_first_occurrence_witness :
    match_req DEFAULT_STANDARDS "조항" "요구사항" findingRow0
      = Cell.str "조직은 인프라를 포함한 필요한 자원을 제공해야 한다." := by
  have h := (C1_match_req_first_occurrence DEFAULT_STANDARDS "조항" "요구사항" findingRow0).1
    1 (by decide) (by decide) (by decide)
  exact h.trans (by decide)

/-- C2 counterexample: enriching the default findings against the default
standards gives the first row (조항 "7", 세부조항 "7.1") the requirement text
of the standards row for clause "7.1", which is NOT the text
"조직은 필요한 자원을 결정하고 제공해야 한다." stated by the claim (that is
the clause "7" row's text): the sub-clause match fires first and wins. -/
theorem C2_default_row_counterexample :
    getCell (defaultEnriched.rows.getD 0 []) "요구사항"
      = Option.some (Cell.str "조직은 인프라를 포함한 필요한 자원을 제공해야 한다.")
    ∧ Cell.str "조직은 인프라를 포함한 필요한 자원을 제공해야 한다."
      ≠ Cell.str "조직은 필요한 자원을 결정하고 제공해야 한다." := by
  exact ⟨by decide, by decide⟩

/-- C2 (amended): the default first finding row is enriched with the
requirement text "조직은 인프라를 포함한 필요한 자원을 제공해야 한다.",
matched via its 세부조항 value "7.1" being exactly equal to the clause
identifier of the second default standards row (whose requirement cell the
first-match lookup returns). -/
theorem C2_default_row_enrichment :
    getCell (defaultEnriched.rows.getD 0 []) "요구사항"
      = Option.some (Cell.str "조직은 인프라를 포함한 필요한 자원을 제공해야 한다.")
    ∧ (astypeStrCol DEFAULT_STANDARDS "조항").rows.find?
        (fun r => cellS r "조항" == pyStr (rowGet (DEFAULT_FINDINGS.rows.getD 0 []) "세부조항"))
      = Option.some [("조항", Cell.str "7.1"),
          ("요구사항", Cell.str "조직은 인프라를 포함한 필요한 자원을 제공해야 한다.")] := by
  exact ⟨by decide, by decide⟩

/-- C3: if the standards table is absent, or it lacks a recognizable
clause-identifier column or a recognizable requirement-text column (so in
particular when it lacks both), `add_req_text` returns the findings table
unmodified — same schema, no 요구사항 column added — and, being a total
function, raises nothing: every missing-data case degrades to pass-through. -/
theorem C3_missing_standards_pass_through :
    ∀ (f : Table) (s : Option Table),
      (s = Option.none ∨ ∀ t, s = Option.some t →
        (findCol t.cols clauseSynonyms = Option.none
          ∨ findCol t.cols reqSynonyms = Option.none)) →
      add_req_text f s = f := by
  intro f s h
  cases s with
  | none => rfl
  | some t =>
    have h2 := (h.resolve_left (by simp)) t rfl
    cases hc : findCol t.cols clauseSynonyms with
    | none =>
      simp only [add_req_text]
      rw [hc]
    | some cc =>
      cases hr : findCol t.cols reqSynonyms with
      | none =>
        simp only [add_req_text]
        rw [hc, hr]
      | some rc =>
        exfalso
        rcases h2 with h2 | h2
        · exact Option.noConfusion (hc.symm.trans h2)
        · exact Option.noConfusion (hr.symm.trans h2)

/-- Witness for C3: a standards table whose only column "x" is neither a
clause-identifier nor a requirement-text synonym leaves the default findings
untouched. -/
theorem C3_missing_standards_pass_through_witness :
    add_req_text DEFAULT_FINDINGS (Option.some { cols := ["x"], rows := [] })
      = DEFAULT_FINDINGS :=
  C3_missing_standards_pass_through DEFAULT_FINDINGS
    (Option.some { cols := ["x"], rows := [] })
    (Or.inr (fun t ht => by cases ht; exact Or.inl (by decide)))

/-- A one-row table whose 내용 cell is missing (`NaN`), used for C4. -/
def nullContentTable : Table := { cols := ["내용"], rows := [[("내용", Cell.nan)]] }

/-- C4 counterexample: the claim says a row with null/missing 내용 never
matches the keyword predicate, but the code runs `astype(str)` before
`.str.contains(..., na=False)`, so a missing cell is compared as the literal
string "nan": with keyword "nan" the row is kept, not excluded. -/
theorem C4_null_content_counterexample :
    (filterKeyword nullContentTable "nan").rows = [[("내용", Cell.nan)]]
    ∧ getCell [("내용", Cell.nan)] "내용" = Option.some Cell.nan := by
  exact ⟨by decide, by decide⟩

/-- C4 (amended): for a non-empty keyword and a table with a 내용 column, the
keyword filter keeps exactly the rows whose string-coerced 내용 (a null cell
coerced to "None", a missing cell to "nan") contains the keyword as a
case-insensitive substring — so rows with null/missing content can match
keywords that are substrings of "nan"/"None" — and rows are excluded only by
this predicate: with an empty keyword or no 내용 column the table passes
through unchanged.  (The pandas pattern is modelled as a literal substring,
the behaviour for metacharacter-free keywords.) -/
theorem C4_keyword_filter_characterization :
    ∀ (t : Table) (kw : String),
      (t.cols.contains "내용" = true → kw ≠ "" →
        ((filterKeyword t kw).rows = t.rows.filter (fun r => keywordHit r kw)
          ∧ (filterKeyword t kw).cols = t.cols
          ∧ ∀ r : Row, keywordHit r kw = true ↔
              ∃ p q, pyLower (cellS r "내용") = p ++ pyLower kw ++ q))
      ∧ ((t.cols.contains "내용" = false ∨ kw = "") → filterKeyword t kw = t) := by
  intro t kw
  constructor
  · intro hc hk
    have hkb : (kw == "") = false := by
      cases hx : (kw == "") with
      | true => exact absurd (eq_of_beq hx) hk
      | false => rfl
    have hg : (t.cols.contains "내용" && !(kw == "")) = true := by
      rw [hc, hkb]
      rfl
    refine ⟨?_, ?_, ?_⟩
    · simp only [filterKeyword, if_pos hg]
    · simp only [filterKeyword, if_pos hg]
    · intro r
      exact charsSub_iff (pyLower kw) (pyLower (cellS r "내용"))
  · intro h
    have hg : (t.cols.contains "내용" && !(kw == "")) = false := by
      rcases h with h | h
      · rw [h]
        rfl
      · rw [h]
        cases t.cols.contains "내용" <;> rfl
    have hng : ¬((t.cols.contains "내용" && !(kw == "")) = true) := by
      rw [hg]
      exact Bool.false_ne_true
    simp only [filterKeyword, if_neg hng]

/-- Witness for C4 (amended): keyword "NA" on the missing-content table —
case-insensitively, "nan" contains "na", so the null-content row is kept. -/
theorem C4_keyword_filter_characterization_witness :
    (filterKeyword nullContentTable "NA").rows = [[("내용", Cell.nan)]] := by
  have h := ((C4_keyword_filter_characterization nullContentTable "NA").1
    (by decide) (by decide)).1
  exact h.trans (by decide)

/-- C5: for a non-empty search string, the clause-search filter keeps exactly
the rows where the string occurs (case-sensitively, as typed) as a substring
of the string form of the 조항 field or of the 세부조항 field — logical OR,
each field contributing when its column is present (on a table with both
columns this is exactly "either field contains it"); on the default dataset
the search "9" yields exactly the 2 rows with 조항 "9.1" and "9.2". -/
theorem C5_clause_search_filter :
    (∀ (t : Table) (s : String), s ≠ "" →
      ((filterClauseSearch t s).rows = t.rows.filter (fun r => clauseSearchHit t.cols r s)
        ∧ ∀ r : Row, clauseSearchHit t.cols r s = true ↔
            ((t.cols.contains "조항" = true
                ∧ ∃ p q, (cellS r "조항").toList = p ++ s.toList ++ q)
              ∨ (t.cols.contains "세부조항" = true
                ∧ ∃ p q, (cellS r "세부조항").toList = p ++ s.toList ++ q))))
    ∧ (filterClauseSearch defaultEnriched "9").rows.map (fun r => cellS r "조항")
        = ["9.1", "9.2"]
    ∧ (filterClauseSearch defaultEnriched "9").rows.length = 2 := by
  refine ⟨?_, by decide, by decide⟩
  intro t s hs
  have hsb : (s == "") = false := by
    cases hx : (s == "") with
    | true => exact absurd (eq_of_beq hx) hs
    | false => rfl
  have hng : ¬((s == "") = true) := by
    rw [hsb]
    exact Bool.false_ne_true
  constructor
  · simp only [filterClauseSearch, if_neg hng]
  · intro r
    simp only [clauseSearchHit, Bool.or_eq_true, Bool.and_eq_true, containsStr, charsSub_iff]

/-- Witness for C5 with the default dataset and search string "9". -/
theorem C5_clause_search_filter_witness :
    (filterClauseSearch defaultEnriched "9").rows
      = defaultEnriched.rows.filter (fun r => clauseSearchHit defaultEnriched.cols r "9") :=
  (C5_clause_search_filter.1 defaultEnriched "9" (by decide)).1

/-- C6 counterexample: filtering the default dataset with category {"권고"}
yields the rows whose 세부조항 values are "7.1.1", "8.3.1", "9.2.2" — not
"7.1", "8.3", "9.2" as the claim states (those are the rows' 조항 values). -/
theorem C6_category_filter_counterexample :
    (filterBySel defaultEnriched "구분" ["권고"]).rows.map (fun r => cellS r "세부조항")
      = ["7.1.1", "8.3.1", "9.2.2"]
    ∧ (["7.1.1", "8.3.1", "9.2.2"] : List String) ≠ ["7.1", "8.3", "9.2"] := by
  exact ⟨by decide, by decide⟩

/-- C6 (amended): filtering the default dataset with the categories criterion
{"권고"} yields exactly the 3 rows with 조항 values 7.1, 8.3, 9.2 (whose
세부조항 values are 7.1.1, 8.3.1, 9.2.2), with contents as listed in the
default findings table. -/
theorem C6_category_filter_default :
    (filterBySel defaultEnriched "구분" ["권고"]).rows = [
      [("인정기준", Cell.str "KAB-R-MSCB"), ("조항", Cell.str "7.1"),
       ("세부조항", Cell.str "7.1.1"), ("구분", Cell.str "권고"),
       ("내용", Cell.str "프로세스 운영계획서에 인원 배치가 미흡함."),
       ("요구사항", Cell.str "조직은 인프라를 포함한 필요한 자원을 제공해야 한다.")],
      [("인정기준", Cell.str "KAB-R-MSCB"), ("조항", Cell.str "8.3"),
       ("세부조항", Cell.str "8.3.1"), ("구분", Cell.str "권고"),
       ("내용", Cell.str "변경관리 절차서가 최신화되어 있지 않음."),
       ("요구사항", Cell.str "제품 및 서비스 설계개발을 관리해야 한다.")],
      [("인정기준", Cell.str "KAB-R-MSCB"), ("조항", Cell.str "9.2"),
       ("세부조항", Cell.str "9.2.2"), ("구분", Cell.str "권고"),
       ("내용", Cell.str "고객만족도 조사 절차 개선 필요."),
       ("요구사항", Cell.str "내부심사를 계획하고 실시해야 한다.")]] := by
  decide

/-- C7: noise-column removal and requirement enrichment are pure functions of
their inputs: in the state-level rendering (where the body's in-place writes
land on the post-`copy()` bindings, as in the source), each call returns the
same result as the pure function and leaves the caller's findings and
standards tables exactly as they were. -/
theorem C7_pure_no_mutation :
    ∀ (df f : Table) (s : Option Table),
      drop_noise_columns_fx df = (drop_noise_columns df, df)
      ∧ add_req_text_fx f s = (add_req_text f s, f, s) := by
  intro df f s
  refine ⟨rfl, ?_⟩
  cases s with
  | none => rfl
  | some t =>
    simp only [add_req_text_fx, add_req_text]
    cases hc : findCol t.cols clauseSynonyms with
    | none => rfl
    | some cc =>
      cases hr : findCol t.cols reqSynonyms with
      | none => rfl
      | some rc => rfl

/-- C8: noise stripping is idempotent: stripping an already-stripped table
changes nothing, on the schema and on every row. -/
theorem C8_strip_noise_idempotent :
    ∀ df : Table, drop_noise_columns (drop_noise_columns df) = drop_noise_columns df := by
  intro df
  simp [drop_noise_columns, List.filter_filter, List.map_map, Function.comp]

/-- A multiselect filter on a zero-row table leaves the rows empty. -/
theorem filterBySel_rows_nil (t : Table) (col : String) (sel : List String)
    (h : t.rows = []) : (filterBySel t col sel).rows = [] := by
  simp only [filterBySel]
  split
  · simp [h]
  · exact h

/-- The keyword filter on a zero-row table leaves the rows empty. -/
theorem filterKeyword_rows_nil (t : Table) (kw : String)
    (h : t.rows = []) : (filterKeyword t kw).rows = [] := by
  simp only [filterKeyword]
  split
  · simp [h]
  · exact h

/-- The clause-search filter on a zero-row table leaves the rows empty. -/
theorem filterClauseSearch_rows_nil (t : Table) (s : String)
    (h : t.rows = []) : (filterClauseSearch t s).rows = [] := by
  simp only [filterClauseSearch]
  split
  · exact h
  · simp [h]

/-- C9: every operation of the engine — noise stripping, requirement
enrichment, each filter, and the whole filtering block — accepts a zero-row
table and returns a zero-row table (all operations are total functions, so
nothing is raised); for noise stripping, column removal still applies to the
schema of the empty table. -/
theorem C9_empty_table_safety :
    ∀ (T : Table) (s : Option Table) (sel1 sel2 sel3 : List String)
      (col kw cs : String) (btn : Bool),
      T.rows = [] →
      (drop_noise_columns T).rows = []
      ∧ (drop_noise_columns T).cols = T.cols.filter (fun c => !(isNoise c))
      ∧ (add_req_text T s).rows = []
      ∧ (filterBySel T col sel1).rows = []
      ∧ (filterKeyword T kw).rows = []
      ∧ (filterClauseSearch T cs).rows = []
      ∧ (apply_filters T sel1 sel2 sel3 kw cs btn).rows = [] := by
  intro T s sel1 sel2 sel3 col kw cs btn h
  refine ⟨by simp [drop_noise_columns, h], rfl, ?_, filterBySel_rows_nil _ _ _ h,
    filterKeyword_rows_nil _ _ h, filterClauseSearch_rows_nil _ _ h, ?_⟩
  · cases s with
    | none => exact h
    | some t =>
      simp only [add_req_text]
      cases hc : findCol t.cols clauseSynonyms with
      | none => exact h
      | some cc =>
        cases hr : findCol t.cols reqSynonyms with
        | none => exact h
        | some rc => simp [assignCol, h]
  · simp only [apply_filters]
    split
    · exact filterClauseSearch_rows_nil _ _ (filterKeyword_rows_nil _ _
        (filterBySel_rows_nil _ _ _ (filterBySel_rows_nil _ _ _
          (filterBySel_rows_nil _ _ _ h))))
    · exact h

/-- A zero-row findings table with the full default schema, for the C9
witness. -/
def emptyFindings : Table :=
  { cols := ["기관명", "조항", "세부조항", "구분", "내용"], rows := [] }

/-- Witness for C9: the zero-row table with the default schema (plus the
noise column 기관명) flows through every operation with zero rows and with
기관명 stripped from the schema. -/
theorem C9_empty_table_safety_witness :
    emptyFindings.rows = []
    ∧ ((drop_noise_columns emptyFindings).rows = []
      ∧ (drop_noise_columns emptyFindings).cols
          = emptyFindings.cols.filter (fun c => !(isNoise c))
      ∧ (add_req_text emptyFindings (Option.some DEFAULT_STANDARDS)).rows = []
      ∧ (filterBySel emptyFindings "조항" ["7"]).rows = []
      ∧ (filterKeyword emptyFindings "고객").rows = []
      ∧ (filterClauseSearch emptyFindings "9").rows = []
      ∧ (apply_filters emptyFindings ["7"] [] [] "고객" "9" true).rows = []) :=
  ⟨rfl, C9_empty_table_safety emptyFindings (Option.some DEFAULT_STANDARDS)
    ["7"] [] [] "조항" "고객" "9" true rfl⟩

/-- A standards table whose single clause identifier is the literal string
"None", for C10. -/
def stdLiteralNone : Table :=
  { cols := ["조항", "요구사항"],
    rows := [[("조항", Cell.str "None"), ("요구사항", Cell.str "R-None")]] }

/-- A standards table whose single clause identifier is the literal string
"nan", for C10. -/
def stdLiteralNan : Table :=
  { cols := ["조항", "요구사항"],
    rows := [[("조항", Cell.str "nan"), ("요구사항", Cell.str "R-nan")]] }

/-- A one-row findings table with no 세부조항 column at all (so `row.get`
yields Python `None`), for C10. -/
def findingNoSubCol : Table := { cols := ["조항"], rows := [[("조항", Cell.str "1")]] }

/-- A one-row findings table whose 세부조항 cell is missing (`NaN`), for C10. -/
def findingNanSub : Table :=
  { cols := ["조항", "세부조항"], rows := [[("조항", Cell.str "1"), ("세부조항", Cell.nan)]] }

/-- A one-row findings table whose 조항 cell is missing (`NaN`) and that has
no 세부조항 column, for the fallback path of C10. -/
def findingNanMain : Table := { cols := ["조항"], rows := [[("조항", Cell.nan)]] }

/-- C10 (implicit): `match_req` coerces the finding's values with Python
`str()`, so (a) a row with no 세부조항 column at all is compared as the
literal string "None" and exact-matches a standards clause that is literally
"None", (b) a row whose 세부조항 cell is missing (`NaN`) is compared as
"nan" and matches a literal "nan" clause, and (c) the same coercion applies
to the 조항 value on the fallback path — in each case the row receives that
standards row's requirement text instead of the empty string. -/
theorem C10_str_coercion_literal_match :
    (add_req_text findingNoSubCol (Option.some stdLiteralNone)).rows
      = [[("조항", Cell.str "1"), ("요구사항", Cell.str "R-None")]]
    ∧ (add_req_text findingNanSub (Option.some stdLiteralNan)).rows
      = [[("조항", Cell.str "1"), ("세부조항", Cell.nan),
          ("요구사항", Cell.str "R-nan")]]
    ∧ (add_req_text findingNanMain (Option.some stdLiteralNan)).rows
      = [[("조항", Cell.nan), ("요구사항", Cell.str "R-nan")]] := by
  exact ⟨by decide, by decide, by decide⟩
